import Mathlib

/-!
Verification development for the stellar-game repository.

The repository has one source bundle containing three React components:
ScreenpipeVerificationPanel (the achievement-verification orchestrator UI),
BlockchainSelector (the network selector), and AchievementCard.  Their pure
decision logic is embedded below as executable Lean definitions; the
asynchronous parts are modelled as explicit outcome parameters (the value or
error with which an awaited promise settles) and as small step relations on
the component state.
-/

/-- Verification status of an achievement, from the Achievement interface in
AchievementCard: "pending" | "verified" | "rejected". -/
inductive VStatus where
  | pending
  | verifiedS
  | rejected
deriving DecidableEq, Repr

/-- The Achievement record from AchievementCard.tsx, with the optional fields
used by the panel (verificationMethod, verificationText). -/
structure Achievement where
  id : String
  title : String
  description : String
  rewardAmount : Nat
  completed : Bool
  timestamp : Option String := none
  verificationStatus : VStatus
  verificationMethod : Option String := none
  verificationText : Option String := none
deriving DecidableEq, Repr

/-- How one awaited call to the Capture Service Client verify function
settles: it resolves with a boolean or throws an error carrying a message. -/
inductive VerifyOutcome where
  | resolves (b : Bool)
  | throws (message : String)
deriving DecidableEq, Repr

/-- The lastVerificationResult record set by the panel:
success flag, message, optional achievementId. -/
structure LastVerificationResult where
  success : Bool
  message : String
  achievementId : Option String
deriving DecidableEq, Repr

/-- Observable effect of one call to verifySelectedAchievement: whether the
Capture Service Client was called, the final lastVerificationResult, and the
list of onVerificationComplete invocations (achievement id, boolean). -/
structure PanelVerifyResult where
  clientCalled : Bool
  lastResult : Option LastVerificationResult
  callbacks : List (String × Bool)
deriving DecidableEq, Repr

/-- The pendingAchievements filter from the panel:
achievements.filter(a => a.completed && a.verificationStatus === "pending").
Only achievements in this list can become the selected achievement. -/
def pendingAchievements (achievements : List Achievement) : List Achievement :=
  achievements.filter (fun a => a.completed && a.verificationStatus == VStatus.pending)

/-- The verifiedAchievements filter from the panel. -/
def verifiedAchievements (achievements : List Achievement) : List Achievement :=
  achievements.filter (fun a => a.verificationStatus == VStatus.verifiedS)

/-- verifySelectedAchievement from ScreenpipeVerificationPanel, as a function
of the selected achievement, the wallet address (a JS string-or-null in which
the empty string is falsy, so the guard rejects both), whether an
onVerificationComplete callback prop was supplied, and how the awaited
verifyAchievement call settles.  The guard is
  if (!selectedAchievement || !walletAddress) return;
after which the client is called and the result handled in try/catch:
on true the result record and the callback (id, true); on false a fixed
failure message; on throw the error message with a fallback when empty. -/
def verifySelectedAchievement (selected : Option Achievement)
    (walletAddress : Option String) (hasCallback : Bool)
    (outcome : VerifyOutcome) : PanelVerifyResult :=
  match selected, walletAddress with
  | some a, some w =>
    if w == "" then ⟨false, none, []⟩
    else
      match outcome with
      | VerifyOutcome.resolves true =>
        ⟨true, some ⟨true, "Achievement verified successfully!", some a.id⟩,
          if hasCallback then [(a.id, true)] else []⟩
      | VerifyOutcome.resolves false =>
        ⟨true, some ⟨false,
          "Could not verify achievement. Make sure the content is visible on your screen.",
          some a.id⟩, []⟩
      | VerifyOutcome.throws m =>
        ⟨true, some ⟨false,
          (if m == "" then "Verification failed due to an unexpected error" else m),
          none⟩, []⟩
  | _, _ => ⟨false, none, []⟩

/-- handleVerify from AchievementCard: awaits verifyAchievement and, when the
call resolves cleanly, passes the boolean to the card callback (which takes
only the boolean, not the id); a thrown error propagates, so no callback. -/
def cardHandleVerify (outcome : VerifyOutcome) (hasCallback : Bool) : List Bool :=
  match outcome with
  | VerifyOutcome.resolves b => if hasCallback then [b] else []
  | VerifyOutcome.throws _ => []

/-- Visibility condition of the card verify button in AchievementCard:
achievement.completed && verificationStatus === "pending" && walletAddress.
The JS truthiness test on walletAddress rejects null and the empty string. -/
def cardVerifyButtonVisible (a : Achievement) (walletAddress : Option String) : Bool :=
  a.completed && (a.verificationStatus == VStatus.pending) &&
    (match walletAddress with
     | none => false
     | some w => !(w == ""))

/-- Sample achievement used as concrete input, matching the scenario in the
specification. -/
def sampleAchievement : Achievement :=
  { id := "a1", title := "Hello", description := "demo", rewardAmount := 10,
    completed := true, verificationStatus := VStatus.pending,
    verificationText := some "Hello" }

/-- Callback behaviour the panel actually implements, stated independently of
the implementation for comparison: onVerificationComplete fires exactly when
the client resolves true and a callback was supplied, and then exactly once
with the achievement id and true. -/
def panelCallbackSpec (selected : Option Achievement)
    (walletAddress : Option String) (hasCallback : Bool)
    (outcome : VerifyOutcome) : List (String × Bool) :=
  match selected, walletAddress, outcome, hasCallback with
  | some a, some w, VerifyOutcome.resolves true, true =>
    if w == "" then [] else [(a.id, true)]
  | _, _, _, _ => []

/-- Claim C1, counterexample: with the sample achievement selected, a
non-empty wallet, a supplied callback, and the Capture Service Client
resolving false, the verify attempt completes (the client was called) yet
onVerificationComplete is never invoked — contradicting the claim that the
callback fires with the boolean outcome after every attempt. -/
theorem c1_counterexample :
    (verifySelectedAchievement (some sampleAchievement) (some "0xABC") true
      (VerifyOutcome.resolves false)).clientCalled = true ∧
    (verifySelectedAchievement (some sampleAchievement) (some "0xABC") true
      (VerifyOutcome.resolves false)).callbacks = [] := by
  constructor <;> rfl

/-- Claim C1, amended: the panel invokes onVerificationComplete only when the
Capture Service Client resolves true (and a callback prop is supplied), and
then exactly once with the achievement id and true; on a false resolution or
a throw no callback is invoked.  The achievement card invokes its simpler
callback (boolean only) on both clean resolutions — passing the resolved
boolean when a callback is supplied — and invokes nothing on a throw. -/
theorem c1_amended (selected : Option Achievement) (walletAddress : Option String)
    (hasCallback : Bool) (outcome : VerifyOutcome) (b : Bool) (m : String) :
    (verifySelectedAchievement selected walletAddress hasCallback outcome).callbacks
      = panelCallbackSpec selected walletAddress hasCallback outcome ∧
    cardHandleVerify (VerifyOutcome.resolves b) hasCallback
      = (if hasCallback then [b] else []) ∧
    cardHandleVerify (VerifyOutcome.throws m) hasCallback = [] := by
  refine ⟨?_, rfl, rfl⟩
  match selected, walletAddress, outcome with
  | none, _, _ => rfl
  | some a, none, _ => rfl
  | some a, some w, VerifyOutcome.resolves true =>
    cases hasCallback <;> by_cases hw : w == "" <;>
      simp [verifySelectedAchievement, panelCallbackSpec, hw]
  | some a, some w, VerifyOutcome.resolves false =>
    by_cases hw : w == "" <;>
      simp [verifySelectedAchievement, panelCallbackSpec, hw]
  | some a, some w, VerifyOutcome.throws m =>
    by_cases hw : w == "" <;>
      simp [verifySelectedAchievement, panelCallbackSpec, hw]

/-- Claim C2, counterexample: on a clean false resolution the message the
panel stores is the literal source string, which is not the string quoted by
the claim ("could not verify — ensure content is visible"). -/
theorem c2_counterexample :
    (verifySelectedAchievement (some sampleAchievement) (some "0xABC") true
      (VerifyOutcome.resolves false)).lastResult =
      some ⟨false,
        "Could not verify achievement. Make sure the content is visible on your screen.",
        some "a1"⟩ ∧
    "Could not verify achievement. Make sure the content is visible on your screen."
      ≠ "could not verify — ensure content is visible" := by
  exact ⟨rfl, by decide⟩

/-- Claim C2, amended: after a failed verify attempt the achievement status
stays pending — the completion callback, the sole channel through which the
Registry changes a status, is not invoked — and the stored failure message is
the source string "Could not verify achievement. Make sure the content is
visible on your screen." on a clean false, while on a throw it is the
underlying error message, or "Verification failed due to an unexpected error"
when that message is empty. -/
theorem c2_amended (a : Achievement) (w : String) (hasCallback : Bool)
    (m : String) (hw : ¬ w = "") :
    (verifySelectedAchievement (some a) (some w) hasCallback
        (VerifyOutcome.resolves false) =
      ⟨true, some ⟨false,
        "Could not verify achievement. Make sure the content is visible on your screen.",
        some a.id⟩, []⟩) ∧
    (verifySelectedAchievement (some a) (some w) hasCallback
        (VerifyOutcome.throws m) =
      ⟨true, some ⟨false,
        (if m = "" then "Verification failed due to an unexpected error" else m),
        none⟩, []⟩) := by
  have hwb : (w == "") = false := by simp [hw]
  constructor
  · simp [verifySelectedAchievement, hwb]
  · by_cases hm : m = "" <;> simp [verifySelectedAchievement, hwb, hm]

/-- Claim C2 witness: the amended theorem applied at the sample achievement,
wallet "0xABC" and error message "boom". -/
theorem c2_amended_witness :
    (verifySelectedAchievement (some sampleAchievement) (some "0xABC") true
        (VerifyOutcome.resolves false) =
      ⟨true, some ⟨false,
        "Could not verify achievement. Make sure the content is visible on your screen.",
        some sampleAchievement.id⟩, []⟩) ∧
    (verifySelectedAchievement (some sampleAchievement) (some "0xABC") true
        (VerifyOutcome.throws "boom") =
      ⟨true, some ⟨false,
        (if "boom" = "" then "Verification failed due to an unexpected error" else "boom"),
        none⟩, []⟩) :=
  c2_amended sampleAchievement "0xABC" true "boom" (by decide)

/-- Claim C3: verification is guarded at the boundary.  Every achievement
selectable in the panel comes from the pendingAchievements filter, hence has
completed = true; with a null or empty wallet address the guard in
verifySelectedAchievement returns before calling the Capture Service Client,
leaving no result and invoking no callback (so no status can change); and the
card verify button is only rendered for completed, pending achievements with
a truthy wallet. -/
theorem c3_boundary_guard :
    (∀ (achievements : List Achievement) (a : Achievement),
      a ∈ pendingAchievements achievements → a.completed = true) ∧
    (∀ (selected : Option Achievement) (hasCallback : Bool) (outcome : VerifyOutcome),
      verifySelectedAchievement selected none hasCallback outcome = ⟨false, none, []⟩ ∧
      verifySelectedAchievement selected (some "") hasCallback outcome = ⟨false, none, []⟩) ∧
    (∀ (a : Achievement) (walletAddress : Option String),
      cardVerifyButtonVisible a walletAddress = true →
        a.completed = true ∧ walletAddress ≠ none ∧ walletAddress ≠ some "") := by
  refine ⟨?_, ?_, ?_⟩
  · intro achievements a ha
    have := List.of_mem_filter ha
    exact (Bool.and_eq_true _ _ ▸ this).1
  · intro selected hasCallback outcome
    constructor
    · cases selected <;> rfl
    · cases selected <;> rfl
  · intro a walletAddress h
    unfold cardVerifyButtonVisible at h
    match walletAddress, h with
    | none, h => simp at h
    | some w, h =>
      simp only [Bool.and_eq_true] at h
      refine ⟨h.1.1, by simp, ?_⟩
      intro hc
      have hw : w = "" := by injection hc
      rw [hw] at h
      simp at h

/-- Claim C3 witness: the guard theorem applied at concrete inputs — the
sample achievement is in the pending filter of a singleton list, and the
verify call with a null wallet is a no-op. -/
theorem c3_boundary_guard_witness :
    sampleAchievement.completed = true ∧
    verifySelectedAchievement (some sampleAchievement) none true
      (VerifyOutcome.resolves true) = ⟨false, none, []⟩ ∧
    sampleAchievement.completed = true ∧ (some "0xABC" : Option String) ≠ none :=
  ⟨c3_boundary_guard.1 [sampleAchievement] sampleAchievement (by decide),
   (c3_boundary_guard.2.1 (some sampleAchievement) true (VerifyOutcome.resolves true)).1,
   (c3_boundary_guard.2.2 sampleAchievement (some "0xABC") (by decide)).1,
   (c3_boundary_guard.2.2 sampleAchievement (some "0xABC") (by decide)).2.1⟩

/-- The connectionStatus values of the panel. -/
inductive ConnStatus where
  | connecting
  | connected
  | disconnected
deriving DecidableEq, Repr

/-- Events acting on connectionStatus.  A trigger event is the synchronous
start of a fetch attempt (before its promise settles); a resolve event is the
settling of a fetch.  mountTrigger is the initializeScreenpipe call run by the
effect on mount, timerTrigger the same function run by the 30-second
setInterval, manualTrigger the Refresh button onClick, which first runs
setConnectionStatus(connecting). -/
inductive FetchEvent where
  | mountTrigger
  | timerTrigger
  | manualTrigger
  | fetchSuccess
  | fetchFailure
deriving DecidableEq, Repr

/-- One step of the connectionStatus state machine, read off the source:
initializeScreenpipe does not touch the status before awaiting
fetchScreenpipeData (so mount and timer triggers leave it unchanged), the
Refresh button sets it to connecting synchronously, and a settling fetch sets
connected on success and disconnected on failure. -/
def connStep (s : ConnStatus) : FetchEvent → ConnStatus
  | FetchEvent.mountTrigger => s
  | FetchEvent.timerTrigger => s
  | FetchEvent.manualTrigger => ConnStatus.connecting
  | FetchEvent.fetchSuccess => ConnStatus.connected
  | FetchEvent.fetchFailure => ConnStatus.disconnected

/-- The status after a sequence of events, starting from the useState initial
value, which is the literal connecting. -/
def connRun (events : List FetchEvent) : ConnStatus :=
  events.foldl connStep ConnStatus.connecting

/-- Claim C4, counterexample: after a successful fetch the panel is connected,
and when the periodic timer then starts the next fetch the status is still
connected while that fetch is in flight — the timer path never re-enters
connecting, contradicting the claim that both the manual refresh and the
periodic timer re-enter connecting before the fetch resolves. -/
theorem c4_counterexample :
    connRun [FetchEvent.mountTrigger, FetchEvent.fetchSuccess, FetchEvent.timerTrigger]
      = ConnStatus.connected ∧
    ConnStatus.connected ≠ ConnStatus.connecting := by
  exact ⟨rfl, by decide⟩

/-- Claim C4, amended: the status starts as connecting before any fetch
resolves; every successful fetch sets connected and every failing fetch sets
disconnected; a manual refresh re-enters connecting before its fetch
resolves, but the periodic timer (like the mount fetch) leaves the previous
status in place until its fetch resolves. -/
theorem c4_amended (s : ConnStatus) :
    connRun [] = ConnStatus.connecting ∧
    connStep s FetchEvent.fetchSuccess = ConnStatus.connected ∧
    connStep s FetchEvent.fetchFailure = ConnStatus.disconnected ∧
    connStep s FetchEvent.manualTrigger = ConnStatus.connecting ∧
    connStep s FetchEvent.timerTrigger = s ∧
    connStep s FetchEvent.mountTrigger = s :=
  ⟨rfl, rfl, rfl, rfl, rfl, rfl⟩

/-- A registry of live interval timers: pairs of timer id and period in
milliseconds.  setInterval appends a fresh timer, clearInterval removes the
timer with the given id. -/
def setIntervalReg (timers : List (Nat × Nat)) (id period : Nat) : List (Nat × Nat) :=
  timers ++ [(id, period)]

/-- clearInterval: remove the timer with the given id from the registry. -/
def clearIntervalReg (timers : List (Nat × Nat)) (id : Nat) : List (Nat × Nat) :=
  timers.filter (fun t => !(t.1 == id))

/-- The mount phase of the panel useEffect: it calls
setInterval(initializeScreenpipe, 30000) and keeps the handle.  Returns the
updated registry and the acquired handle. -/
def mountPanelEffect (timers : List (Nat × Nat)) (freshId : Nat) :
    List (Nat × Nat) × Nat :=
  (setIntervalReg timers freshId 30000, freshId)

/-- The cleanup the useEffect returns: clearInterval(interval).  React runs
this on every teardown path (unmount or dependency change). -/
def unmountPanelEffect (timers : List (Nat × Nat)) (id : Nat) : List (Nat × Nat) :=
  clearIntervalReg timers id

/-- Claim C9: the effect acquires exactly one timer whose period is the fixed
30000 milliseconds, and the cleanup it returns removes exactly that timer, so
a mount followed by its teardown restores the original registry (for a fresh
handle, as setInterval guarantees).  React runs the returned cleanup on every
teardown path, including early unmount, so the timer is unconditionally
released. -/
theorem c9_timer_lifecycle (timers : List (Nat × Nat)) (freshId : Nat)
    (hfresh : freshId ∉ timers.map Prod.fst) :
    (mountPanelEffect timers freshId).1 = timers ++ [(freshId, 30000)] ∧
    (∀ p, (freshId, p) ∈ (mountPanelEffect timers freshId).1 → p = 30000) ∧
    unmountPanelEffect (mountPanelEffect timers freshId).1 freshId = timers := by
  refine ⟨rfl, ?_, ?_⟩
  · intro p hp
    simp only [mountPanelEffect, setIntervalReg, List.mem_append, List.mem_singleton] at hp
    rcases hp with hp | hp
    · exact absurd (List.mem_map_of_mem Prod.fst hp) hfresh
    · exact congrArg Prod.snd hp
  · simp only [unmountPanelEffect, mountPanelEffect, setIntervalReg, clearIntervalReg,
      List.filter_append]
    have h1 : timers.filter (fun t => !(t.1 == freshId)) = timers := by
      apply List.filter_eq_self.mpr
      intro t ht
      have : t.1 ≠ freshId := by
        intro he
        exact hfresh (he ▸ List.mem_map_of_mem Prod.fst ht)
      simp [this]
    have h2 : [(freshId, 30000)].filter (fun t => !(t.1 == freshId)) = [] := by
      simp
    rw [h1, h2, List.append_nil]

/-- Claim C9 witness: the lifecycle theorem applied to the empty registry and
handle 0. -/
theorem c9_timer_lifecycle_witness :
    (mountPanelEffect [] 0).1 = [] ++ [(0, 30000)] ∧
    (∀ p, (0, p) ∈ (mountPanelEffect [] 0).1 → p = 30000) ∧
    unmountPanelEffect (mountPanelEffect [] 0).1 0 = [] :=
  c9_timer_lifecycle [] 0 (by decide)

/-- An error thrown by the wallet provider: an optional numeric code (the
err.code field, absent on plain errors) and a message string. -/
structure ProviderError where
  code : Option Int
  message : String
deriving DecidableEq, Repr

/-- Boolean substring test on character lists, modelling the JS
String.prototype.includes used in handleAddMonadTestnet. -/
def containsSub (hay pat : List Char) : Bool :=
  match hay with
  | [] => pat.isEmpty
  | c :: t => pat.isPrefixOf (c :: t) || containsSub t pat

/-- The catch branch of handleSwitchNetwork in BlockchainSelector: code 4001
maps to "Network switch rejected", every other error to the generic
"Failed to switch network". -/
def handleSwitchNetworkError (e : ProviderError) : String :=
  if e.code = some 4001 then "Network switch rejected"
  else "Failed to switch network"

/-- The catch branch of handleAddMonadTestnet in BlockchainSelector: the
if/else chain on err.code (4001, -32602, -32603), then the err.message
includes("chain ID") test, then the generic default; the chosen message is
suffixed with ". Please check the network details and try again.". -/
def handleAddNetworkError (e : ProviderError) : String :=
  let errorMessage :=
    if e.code = some 4001 then "User rejected the request"
    else if e.code = some (-32602) then "Invalid parameters"
    else if e.code = some (-32603) then "Internal error - check RPC URL"
    else if containsSub e.message.data ("chain ID").data then "Invalid chain ID"
    else "Failed to add network"
  errorMessage ++ ". Please check the network details and try again."

/-- Claim C7, counterexample: in handleSwitchNetwork the provider codes
-32602 and -32603 are not mapped to distinct messages — both yield the same
generic "Failed to switch network" as an arbitrary unknown code, contradicting
the claim that switchChain maps -32602 to an invalid-parameters message and
-32603 to an internal-error message.  (Those mappings live in the add-chain
handler instead.) -/
theorem c7_counterexample :
    handleSwitchNetworkError ⟨some (-32602), ""⟩ = "Failed to switch network" ∧
    handleSwitchNetworkError ⟨some (-32603), ""⟩ = "Failed to switch network" ∧
    handleSwitchNetworkError ⟨some (-32602), ""⟩
      = handleSwitchNetworkError ⟨some 12345, ""⟩ ∧
    ("Failed to switch network" : String) ≠ "Invalid parameters" := by
  refine ⟨rfl, rfl, rfl, by decide⟩

/-- Claim C7, amended: handleSwitchNetwork maps code 4001 to
"Network switch rejected" and every other error (any other code, or no code)
to "Failed to switch network"; the four-way code mapping described by the
claim belongs to handleAddMonadTestnet, whose catch maps 4001, -32602,
-32603, then messages containing "chain ID", and otherwise falls back to
"Failed to add network", each suffixed with ". Please check the network
details and try again.". -/
theorem c7_amended (code : Int) (msg : String) :
    handleSwitchNetworkError ⟨some 4001, msg⟩ = "Network switch rejected" ∧
    (code ≠ 4001 →
      handleSwitchNetworkError ⟨some code, msg⟩ = "Failed to switch network") ∧
    handleSwitchNetworkError ⟨none, msg⟩ = "Failed to switch network" ∧
    handleAddNetworkError ⟨some 4001, msg⟩ =
      "User rejected the request. Please check the network details and try again." ∧
    handleAddNetworkError ⟨some (-32602), msg⟩ =
      "Invalid parameters. Please check the network details and try again." ∧
    handleAddNetworkError ⟨some (-32603), msg⟩ =
      "Internal error - check RPC URL. Please check the network details and try again." ∧
    (code ≠ 4001 → code ≠ -32602 → code ≠ -32603 →
      containsSub msg.data ("chain ID").data = true →
      handleAddNetworkError ⟨some code, msg⟩ =
        "Invalid chain ID. Please check the network details and try again.") ∧
    (code ≠ 4001 → code ≠ -32602 → code ≠ -32603 →
      containsSub msg.data ("chain ID").data = false →
      handleAddNetworkError ⟨some code, msg⟩ =
        "Failed to add network. Please check the network details and try again.") := by
  refine ⟨rfl, ?_, rfl, rfl, rfl, rfl, ?_, ?_⟩
  · intro h
    simp [handleSwitchNetworkError, Option.some.injEq, h]
  · intro h1 h2 h3 h4
    simp [handleAddNetworkError, Option.some.injEq, h1, h2, h3, h4]
  · intro h1 h2 h3 h4
    simp [handleAddNetworkError, Option.some.injEq, h1, h2, h3, h4]

/-- Claim C7 witness: the amended mapping applied at code 777 with the plain
message "boom" (generic fallback) and with a message containing "chain ID"
(the chain ID mapping). -/
theorem c7_amended_witness :
    handleSwitchNetworkError ⟨some 777, "boom"⟩ = "Failed to switch network" ∧
    handleAddNetworkError ⟨some 777, "Unrecognized chain ID"⟩ =
      "Invalid chain ID. Please check the network details and try again." ∧
    handleAddNetworkError ⟨some 777, "boom"⟩ =
      "Failed to add network. Please check the network details and try again." :=
  ⟨(c7_amended 777 "boom").2.1 (by decide),
   (c7_amended 777 "Unrecognized chain ID").2.2.2.2.2.2.1
     (by decide) (by decide) (by decide) (by decide),
   (c7_amended 777 "boom").2.2.2.2.2.2.2
     (by decide) (by decide) (by decide) (by decide)⟩

/-- Observable component state of BlockchainSelector: the isLoading flag, the
error message, and the current NetworkInfo (chainId, chainName). -/
structure SelectorState where
  isLoading : Bool
  errorMsg : Option String
  currentNetwork : Option (String × String)
deriving DecidableEq, Repr

/-- The wallet RPCs handleAddMonadTestnet can issue. -/
inductive WalletRpc where
  | addEthereumChain
  | switchEthereumChain
deriving DecidableEq, Repr

/-- How an awaited wallet RPC settles. -/
inductive RpcOutcome where
  | ok
  | fail (e : ProviderError)
deriving DecidableEq, Repr

/-- handleAddMonadTestnet from BlockchainSelector as a function of the
component state, the window.confirm answer, and the outcomes of the add-chain
and switch-chain RPCs.  Source order: setIsLoading(true); setError(null);
window.confirm; on decline an early return (the finally still runs
setIsLoading(false)); otherwise the wallet_addEthereumChain request; on its
success a wallet_switchEthereumChain attempt whose failure is only logged
with console.warn; on an add failure setError with the mapped message.
Returns the final state and the list of RPCs issued. -/
def handleAddMonadTestnet (s : SelectorState) (confirmed : Bool)
    (addOutcome switchOutcome : RpcOutcome) : SelectorState × List WalletRpc :=
  let s1 : SelectorState := { s with isLoading := true, errorMsg := none }
  if confirmed then
    match addOutcome with
    | RpcOutcome.ok =>
      match switchOutcome with
      | RpcOutcome.ok =>
        ({ s1 with isLoading := false },
          [WalletRpc.addEthereumChain, WalletRpc.switchEthereumChain])
      | RpcOutcome.fail _ =>
        ({ s1 with isLoading := false },
          [WalletRpc.addEthereumChain, WalletRpc.switchEthereumChain])
    | RpcOutcome.fail e =>
      ({ s1 with isLoading := false, errorMsg := some (handleAddNetworkError e) },
        [WalletRpc.addEthereumChain])
  else
    ({ s1 with isLoading := false }, [])

/-- A selector state with a previously shown error, used as concrete input. -/
def declineStart : SelectorState :=
  ⟨false, some "Network switch rejected", none⟩

/-- Claim C8, counterexample: when the user declines the confirmation no RPC
is issued, but the component state does change — handleAddMonadTestnet runs
setError(null) before the confirm dialog, so a previously shown error message
is cleared even on decline, contradicting the claim that no state changes. -/
theorem c8_counterexample :
    (handleAddMonadTestnet declineStart false RpcOutcome.ok RpcOutcome.ok).2 = [] ∧
    (handleAddMonadTestnet declineStart false RpcOutcome.ok RpcOutcome.ok).1
      ≠ declineStart := by
  refine ⟨rfl, by decide⟩

/-- Claim C8, amended: addChain requires the window.confirm answer before
issuing the add-chain RPC; on decline no RPC is issued and the network state
is untouched, but any previously shown error message is cleared (and the
loading flag ends false).  On confirm with a successful add, the add-chain
RPC is followed by a best-effort switch-chain RPC whose failure is non-fatal:
the final state is the same whether the switch succeeds or fails, and carries
no error. -/
theorem c8_amended (s : SelectorState) (addOutcome switchOutcome : RpcOutcome)
    (e : ProviderError) :
    (handleAddMonadTestnet s false addOutcome switchOutcome
      = ({ s with isLoading := false, errorMsg := none }, [])) ∧
    ((handleAddMonadTestnet s true RpcOutcome.ok switchOutcome).2
      = [WalletRpc.addEthereumChain, WalletRpc.switchEthereumChain]) ∧
    ((handleAddMonadTestnet s true RpcOutcome.ok switchOutcome).1
      = { s with isLoading := false, errorMsg := none }) ∧
    ((handleAddMonadTestnet s true RpcOutcome.ok (RpcOutcome.fail e)).1
      = (handleAddMonadTestnet s true RpcOutcome.ok RpcOutcome.ok).1) := by
  refine ⟨rfl, ?_, ?_, rfl⟩
  · cases switchOutcome <;> rfl
  · cases switchOutcome <;> rfl

/-- Modelled from the spec: the useAchievementVerification hook is not among
the repository sources (only its call sites are), so its observable state is
modelled here.  Per the spec, verify "enters a single in-flight verification"
and exposes a verifying flag; the panel source disables every button that can
start a verify while verifying is true, so a start event in the verifying
state is rejected.  The machine tracks the verifying flag, the ids of
started-but-unsettled attempts, a fresh-id counter, the last recorded outcome
(attempt id, boolean) and the progress counter. -/
structure VerifMachine where
  verifying : Bool
  inflight : List Nat
  nextId : Nat
  lastOutcome : Option (Nat × Bool)
  progress : Nat
deriving DecidableEq, Repr

/-- Events of the verification machine: a user click on a verify button, or
the settling of the promise of attempt id with a boolean result. -/
inductive VerifEvent where
  | startVerify
  | resolveVerify (id : Nat) (result : Bool)
deriving DecidableEq, Repr

/-- Modelled from the spec: one step of the verification machine.  A start
while verifying is rejected (the source buttons carry disabled when
verifying); an accepted start resets the previous result and progress and
registers a fresh attempt; a settling resolution of a registered attempt
clears the verifying flag and records the outcome, and a resolution whose
attempt is not registered is discarded. -/
def verifStep (s : VerifMachine) : VerifEvent → VerifMachine
  | VerifEvent.startVerify =>
    if s.verifying then s
    else
      { verifying := true, inflight := s.inflight ++ [s.nextId],
        nextId := s.nextId + 1, lastOutcome := none, progress := 0 }
  | VerifEvent.resolveVerify i b =>
    if i ∈ s.inflight then
      { verifying := false, inflight := s.inflight.erase i, nextId := s.nextId,
        lastOutcome := some (i, b),
        progress := if b then 100 else s.progress }
    else s

/-- The machine before any event. -/
def verifInit : VerifMachine := ⟨false, [], 0, none, 0⟩

/-- State of the verification machine after a sequence of events. -/
def verifRun (events : List VerifEvent) : VerifMachine :=
  events.foldl verifStep verifInit

/-- Invariant tying the verifying flag to the set of unsettled attempts. -/
def VerifInv (s : VerifMachine) : Prop :=
  s.inflight.length ≤ 1 ∧ s.verifying = !s.inflight.isEmpty

theorem verifStep_inv (s : VerifMachine) (e : VerifEvent) (h : VerifInv s) :
    VerifInv (verifStep s e) := by
  cases e with
  | startVerify =>
    by_cases hv : s.verifying
    · simpa [verifStep, hv] using h
    · have hvb : s.verifying = false := by simpa using hv
      have hemp : s.inflight.isEmpty = true := by
        have h2 := h.2
        rw [hvb] at h2
        cases hie : s.inflight.isEmpty
        · rw [hie] at h2; simp at h2
        · rfl
      have hnil : s.inflight = [] := List.isEmpty_iff.mp hemp
      simp [verifStep, hvb, VerifInv, hnil]
  | resolveVerify i b =>
    by_cases hc : i ∈ s.inflight
    · have hsing : s.inflight = [i] := by
        cases hl : s.inflight with
        | nil => rw [hl] at hc; exact absurd hc (List.not_mem_nil i)
        | cons x xs =>
          have hlen := h.1
          rw [hl] at hlen
          simp only [List.length_cons] at hlen
          have hlen0 : xs.length = 0 := by omega
          have hxs : xs = [] := List.eq_nil_of_length_eq_zero hlen0
          rw [hl, hxs] at hc
          have : i = x := by simpa using hc
          rw [hxs, this]
      simp [verifStep, hc, VerifInv, hsing]
    · simpa [verifStep, hc] using h

theorem verifFoldl_inv :
    ∀ (events : List VerifEvent) (s : VerifMachine), VerifInv s →
      VerifInv (events.foldl verifStep s)
  | [], _, h => h
  | e :: l, s, h => verifFoldl_inv l (verifStep s e) (verifStep_inv s e h)

/-- Claim C5: after any sequence of user clicks and promise settlings at most
one verify attempt is in flight, and a further start while one is in flight
is rejected outright — the step is the identity, so neither the progress
counter nor any other field is touched.  Because the single-flight invariant
makes a second concurrent attempt unreachable, a superseded attempt never
exists, and the recorded outcome always belongs to the unique attempt that
was in flight (stale resolutions — ids not in flight — are discarded by the
step). -/
theorem c5_single_flight (events : List VerifEvent) :
    (verifRun events).inflight.length ≤ 1 ∧
    ((verifRun events).verifying = true →
      verifStep (verifRun events) VerifEvent.startVerify = verifRun events) := by
  have hinv : VerifInv (verifRun events) :=
    verifFoldl_inv events verifInit ⟨by decide, by decide⟩
  refine ⟨hinv.1, ?_⟩
  intro hv
  simp [verifStep, hv]

/-- Claim C5 witness: the theorem applied after a single start event, whose
state has the verifying flag set. -/
theorem c5_single_flight_witness :
    (verifRun [VerifEvent.startVerify]).inflight.length ≤ 1 ∧
    verifStep (verifRun [VerifEvent.startVerify]) VerifEvent.startVerify
      = verifRun [VerifEvent.startVerify] :=
  ⟨(c5_single_flight [VerifEvent.startVerify]).1,
   (c5_single_flight [VerifEvent.startVerify]).2 (by decide)⟩

/-- Modelled from the spec: the progress simulation of the missing
useAchievementVerification hook.  Progress advances from 0 by clamped
increments while the verify call is awaited; one step adds an increment and
clamps at 100. -/
def stepProgress (p inc : Nat) : Nat := min 100 (p + inc)

/-- Progress after a sequence of simulation increments, starting from 0. -/
def runProgress (incs : List Nat) : Nat := incs.foldl stepProgress 0

/-- Modelled from the spec: the transient verification session of the missing
hook — the progress counter and the error message. -/
structure VerifSession where
  progress : Nat
  errorMsg : Option String
deriving DecidableEq, Repr

/-- Modelled from the spec: resetVerificationState clears progress and error
state. -/
def resetVerificationState (_s : VerifSession) : VerifSession := ⟨0, none⟩

/-- Modelled from the spec: the progress value at the moment the verify
promise resolves — set to the terminal 100 on success, otherwise left at the
simulated value. -/
def verifyCallFinalProgress (incs : List Nat) (success : Bool) : Nat :=
  if success then 100 else runProgress incs

theorem runProgress_le_aux :
    ∀ (l : List Nat) (p : Nat), p ≤ 100 →
      p ≤ l.foldl stepProgress p ∧ l.foldl stepProgress p ≤ 100
  | [], p, h => ⟨Nat.le_refl p, h⟩
  | a :: l, p, h => by
    have h1 : p ≤ stepProgress p a :=
      Nat.le_min.mpr ⟨h, Nat.le_add_right p a⟩
    have h2 : stepProgress p a ≤ 100 := Nat.min_le_left _ _
    have ih := runProgress_le_aux l (stepProgress p a) h2
    exact ⟨Nat.le_trans h1 ih.1, ih.2⟩

/-- Claim C6: over the lifetime of one verify call the progress counter is
monotonically non-decreasing (extending the increment sequence never lowers
it) and bounded by 100; on success it equals the terminal 100 at the moment
the promise resolves; it starts at 0; and it equals 0 immediately after
resetVerificationState. -/
theorem c6_progress :
    (∀ (l1 l2 : List Nat), runProgress l1 ≤ runProgress (l1 ++ l2)) ∧
    (∀ incs : List Nat, runProgress incs ≤ 100) ∧
    (∀ incs : List Nat, verifyCallFinalProgress incs true = 100) ∧
    runProgress [] = 0 ∧
    (∀ s : VerifSession, (resetVerificationState s).progress = 0) := by
  have hb : ∀ incs : List Nat, runProgress incs ≤ 100 :=
    fun incs => (runProgress_le_aux incs 0 (by decide)).2
  refine ⟨?_, hb, fun _ => rfl, rfl, fun _ => rfl⟩
  intro l1 l2
  unfold runProgress
  rw [List.foldl_append]
  exact (runProgress_le_aux l2 (l1.foldl stepProgress 0) (hb l1)).1
